import Mathlib

/-!
Verification of the Tax_Bot_India tax computation engine.

The Python source (`tax_calculator.py`, `tax_predictor.py`) is embedded
shallowly: monetary amounts and the decimal rates (0.05, 0.04, …) are
modelled as exact rationals (ℚ), matching the spec's "decimal" data model;
dictionaries returned by the Python functions become Lean structures with
the same field names.
-/

/-- The `{"base_tax", "cess", "total_tax"}` dictionary returned by both
regime calculators in `tax_calculator.py`. -/
structure TaxBreakdown where
  base_tax : ℚ
  cess : ℚ
  total_tax : ℚ
deriving DecidableEq, Repr

/-- The slab chain of `calculate_old_regime_tax` (tax_calculator.py lines
19–26): the value of the local variable `tax` after the if/elif chain. -/
def old_base_tax (income_after_deductions : ℚ) : ℚ :=
  if income_after_deductions ≤ 250000 then 0
  else if income_after_deductions ≤ 500000 then
    (income_after_deductions - 250000) * 0.05
  else if income_after_deductions ≤ 1000000 then
    12500 + (income_after_deductions - 500000) * 0.2
  else
    112500 + (income_after_deductions - 1000000) * 0.3

/-- `calculate_old_regime_tax` (tax_calculator.py lines 6–37): slab tax,
4% cess on it, and their sum. -/
def calculate_old_regime_tax (income_after_deductions : ℚ) : TaxBreakdown :=
  let tax := old_base_tax income_after_deductions
  let cess := tax * 0.04
  let total_tax := tax + cess
  { base_tax := tax, cess := cess, total_tax := total_tax }

/-- The slab chain of `calculate_new_regime_tax` (tax_calculator.py lines
52–63): the value of the local variable `tax` after the if/elif chain. -/
def new_base_tax (income : ℚ) : ℚ :=
  if income ≤ 300000 then 0
  else if income ≤ 600000 then (income - 300000) * 0.05
  else if income ≤ 900000 then 15000 + (income - 600000) * 0.1
  else if income ≤ 1200000 then 45000 + (income - 900000) * 0.15
  else if income ≤ 1500000 then 90000 + (income - 1200000) * 0.2
  else 150000 + (income - 1500000) * 0.3

/-- `calculate_new_regime_tax` (tax_calculator.py lines 39–74): slab tax,
4% cess on it, and their sum. -/
def calculate_new_regime_tax (income : ℚ) : TaxBreakdown :=
  let tax := new_base_tax income
  let cess := tax * 0.04
  let total_tax := tax + cess
  { base_tax := tax, cess := cess, total_tax := total_tax }

/-- C1: `calculate_old_regime_tax` follows the four-tier old-regime table
with ≤ semantics on each upper bound, and every income ≤ 250,000 yields the
all-zero breakdown. -/
theorem old_regime_four_tier_table (x : ℚ) :
    (x ≤ 250000 → calculate_old_regime_tax x = ⟨0, 0, 0⟩) ∧
    (250000 < x → x ≤ 500000 →
      (calculate_old_regime_tax x).base_tax = (x - 250000) * 0.05) ∧
    (500000 < x → x ≤ 1000000 →
      (calculate_old_regime_tax x).base_tax = 12500 + (x - 500000) * 0.2) ∧
    (1000000 < x →
      (calculate_old_regime_tax x).base_tax = 112500 + (x - 1000000) * 0.3) := by
  refine ⟨fun h1 => ?_, fun h1 h2 => ?_, fun h1 h2 => ?_, fun h1 => ?_⟩ <;>
    simp only [calculate_old_regime_tax, old_base_tax] <;>
    split_ifs <;> first | rfl | linarith | norm_num

/-- Witness for C1: the theorem applied at one concrete income in each tier. -/
theorem old_regime_four_tier_table_witness :
    calculate_old_regime_tax 200000 = ⟨0, 0, 0⟩ ∧
    (calculate_old_regime_tax 400000).base_tax = ((400000 : ℚ) - 250000) * 0.05 ∧
    (calculate_old_regime_tax 800000).base_tax = 12500 + ((800000 : ℚ) - 500000) * 0.2 ∧
    (calculate_old_regime_tax 2000000).base_tax = 112500 + ((2000000 : ℚ) - 1000000) * 0.3 :=
  ⟨(old_regime_four_tier_table 200000).1 (by norm_num),
   (old_regime_four_tier_table 400000).2.1 (by norm_num) (by norm_num),
   (old_regime_four_tier_table 800000).2.2.1 (by norm_num) (by norm_num),
   (old_regime_four_tier_table 2000000).2.2.2 (by norm_num)⟩

/-- C2: `calculate_new_regime_tax` follows the six-tier new-regime table
with ≤ semantics on each upper bound, and every income ≤ 300,000 yields the
all-zero breakdown. -/
theorem new_regime_six_tier_table (x : ℚ) :
    (x ≤ 300000 → calculate_new_regime_tax x = ⟨0, 0, 0⟩) ∧
    (300000 < x → x ≤ 600000 →
      (calculate_new_regime_tax x).base_tax = (x - 300000) * 0.05) ∧
    (600000 < x → x ≤ 900000 →
      (calculate_new_regime_tax x).base_tax = 15000 + (x - 600000) * 0.1) ∧
    (900000 < x → x ≤ 1200000 →
      (calculate_new_regime_tax x).base_tax = 45000 + (x - 900000) * 0.15) ∧
    (1200000 < x → x ≤ 1500000 →
      (calculate_new_regime_tax x).base_tax = 90000 + (x - 1200000) * 0.2) ∧
    (1500000 < x →
      (calculate_new_regime_tax x).base_tax = 150000 + (x - 1500000) * 0.3) := by
  refine ⟨fun h1 => ?_, fun h1 h2 => ?_, fun h1 h2 => ?_, fun h1 h2 => ?_,
    fun h1 h2 => ?_, fun h1 => ?_⟩ <;>
    simp only [calculate_new_regime_tax, new_base_tax] <;>
    split_ifs <;> first | rfl | linarith | norm_num

/-- Witness for C2: the theorem applied at one concrete income in each tier. -/
theorem new_regime_six_tier_table_witness :
    calculate_new_regime_tax 250000 = ⟨0, 0, 0⟩ ∧
    (calculate_new_regime_tax 400000).base_tax = ((400000 : ℚ) - 300000) * 0.05 ∧
    (calculate_new_regime_tax 700000).base_tax = 15000 + ((700000 : ℚ) - 600000) * 0.1 ∧
    (calculate_new_regime_tax 1000000).base_tax = 45000 + ((1000000 : ℚ) - 900000) * 0.15 ∧
    (calculate_new_regime_tax 1300000).base_tax = 90000 + ((1300000 : ℚ) - 1200000) * 0.2 ∧
    (calculate_new_regime_tax 2000000).base_tax = 150000 + ((2000000 : ℚ) - 1500000) * 0.3 :=
  ⟨(new_regime_six_tier_table 250000).1 (by norm_num),
   (new_regime_six_tier_table 400000).2.1 (by norm_num) (by norm_num),
   (new_regime_six_tier_table 700000).2.2.1 (by norm_num) (by norm_num),
   (new_regime_six_tier_table 1000000).2.2.2.1 (by norm_num) (by norm_num),
   (new_regime_six_tier_table 1300000).2.2.2.2.1 (by norm_num) (by norm_num),
   (new_regime_six_tier_table 2000000).2.2.2.2.2 (by norm_num)⟩

/-- C3: in both regimes the cess is exactly 4% of the base tax and the
total is exactly their sum. -/
theorem cess_and_total_exact (x : ℚ) :
    (calculate_old_regime_tax x).cess = (calculate_old_regime_tax x).base_tax * 0.04 ∧
    (calculate_old_regime_tax x).total_tax =
      (calculate_old_regime_tax x).base_tax + (calculate_old_regime_tax x).cess ∧
    (calculate_new_regime_tax x).cess = (calculate_new_regime_tax x).base_tax * 0.04 ∧
    (calculate_new_regime_tax x).total_tax =
      (calculate_new_regime_tax x).base_tax + (calculate_new_regime_tax x).cess :=
  ⟨rfl, rfl, rfl, rfl⟩

/-- C4: a negative income falls into each regime's first slab, so both
calculators return exactly the breakdown they return at income 0, the
all-zero breakdown. -/
theorem negative_income_clamped (x : ℚ) (h : x < 0) :
    calculate_old_regime_tax x = calculate_old_regime_tax 0 ∧
    calculate_new_regime_tax x = calculate_new_regime_tax 0 ∧
    calculate_old_regime_tax x = ⟨0, 0, 0⟩ ∧
    calculate_new_regime_tax x = ⟨0, 0, 0⟩ := by
  have h1 : x ≤ 250000 := by linarith
  have h2 : x ≤ 300000 := by linarith
  refine ⟨?_, ?_, ?_, ?_⟩ <;>
    simp only [calculate_old_regime_tax, calculate_new_regime_tax,
      old_base_tax, new_base_tax] <;>
    split_ifs <;> first | rfl | linarith | norm_num

/-- Witness for C4: the theorem applied at the concrete income −5. -/
theorem negative_income_clamped_witness :
    calculate_old_regime_tax (-5) = calculate_old_regime_tax 0 ∧
    calculate_new_regime_tax (-5) = calculate_new_regime_tax 0 ∧
    calculate_old_regime_tax (-5) = ⟨0, 0, 0⟩ ∧
    calculate_new_regime_tax (-5) = ⟨0, 0, 0⟩ :=
  negative_income_clamped (-5) (by norm_num)

/-- The `{"regime", "savings"}` dictionary returned by `get_better_regime`
in `tax_calculator.py`. -/
structure RegimeVerdict where
  regime : String
  savings : ℚ
deriving DecidableEq, Repr

/-- `get_better_regime` (tax_calculator.py lines 118–138): strict `<` on
`total_tax`, Old Regime when old is strictly cheaper, else New Regime. -/
def get_better_regime (old_regime_tax new_regime_tax : TaxBreakdown) : RegimeVerdict :=
  if old_regime_tax.total_tax < new_regime_tax.total_tax then
    { regime := "Old Regime",
      savings := new_regime_tax.total_tax - old_regime_tax.total_tax }
  else
    { regime := "New Regime",
      savings := old_regime_tax.total_tax - new_regime_tax.total_tax }

/-- C5: `get_better_regime` picks Old Regime with savings
new − old exactly when old < new, otherwise New Regime with savings
old − new; a tie gives New Regime with zero savings, and savings is
never negative. -/
theorem better_regime_comparison (o n : TaxBreakdown) :
    (o.total_tax < n.total_tax →
      get_better_regime o n = ⟨"Old Regime", n.total_tax - o.total_tax⟩) ∧
    (n.total_tax ≤ o.total_tax →
      get_better_regime o n = ⟨"New Regime", o.total_tax - n.total_tax⟩) ∧
    (o.total_tax = n.total_tax → get_better_regime o n = ⟨"New Regime", 0⟩) ∧
    0 ≤ (get_better_regime o n).savings := by
  refine ⟨fun h => ?_, fun h => ?_, fun h => ?_, ?_⟩
  · rw [get_better_regime, if_pos h]
  · rw [get_better_regime, if_neg (not_lt.mpr h)]
  · rw [get_better_regime, if_neg (not_lt.mpr h.ge), h, sub_self]
  · rw [get_better_regime]
    split_ifs with hc
    · simp only [RegimeVerdict.savings]
      linarith
    · simp only [RegimeVerdict.savings]
      linarith [not_lt.mp hc]

/-- Witness for C5: the theorem applied to concrete breakdowns, one pair
per comparison outcome (old cheaper, new cheaper, exact tie). -/
theorem better_regime_comparison_witness :
    get_better_regime ⟨100, 4, 104⟩ ⟨200, 8, 208⟩ = ⟨"Old Regime", 104⟩ ∧
    get_better_regime ⟨200, 8, 208⟩ ⟨100, 4, 104⟩ = ⟨"New Regime", 104⟩ ∧
    get_better_regime ⟨100, 4, 104⟩ ⟨100, 4, 104⟩ = ⟨"New Regime", 0⟩ ∧
    0 ≤ (get_better_regime ⟨100, 4, 104⟩ ⟨200, 8, 208⟩).savings := by
  refine ⟨?_, ?_, ?_, (better_regime_comparison ⟨100, 4, 104⟩ ⟨200, 8, 208⟩).2.2.2⟩
  · have := (better_regime_comparison ⟨100, 4, 104⟩ ⟨200, 8, 208⟩).1 (by norm_num)
    rw [this]
    norm_num
  · have := (better_regime_comparison ⟨200, 8, 208⟩ ⟨100, 4, 104⟩).2.1 (by norm_num)
    rw [this]
    norm_num
  · exact (better_regime_comparison ⟨100, 4, 104⟩ ⟨100, 4, 104⟩).2.2.1 rfl

/-- The old-regime slab chain is monotone in income. -/
theorem old_base_tax_mono {x y : ℚ} (h : x ≤ y) : old_base_tax x ≤ old_base_tax y := by
  unfold old_base_tax
  split_ifs <;> linarith

/-- The new-regime slab chain is monotone in income. -/
theorem new_base_tax_mono {x y : ℚ} (h : x ≤ y) : new_base_tax x ≤ new_base_tax y := by
  unfold new_base_tax
  split_ifs <;> linarith

/-- C6: for both regimes, total tax is non-decreasing in income. -/
theorem total_tax_monotone (x y : ℚ) (h : x ≤ y) :
    (calculate_old_regime_tax x).total_tax ≤ (calculate_old_regime_tax y).total_tax ∧
    (calculate_new_regime_tax x).total_tax ≤ (calculate_new_regime_tax y).total_tax := by
  have ho := old_base_tax_mono h
  have hn := new_base_tax_mono h
  constructor <;>
    simp only [calculate_old_regime_tax, calculate_new_regime_tax] <;> linarith

/-- Witness for C6: the theorem applied at the concrete pair 400,000 ≤ 800,000. -/
theorem total_tax_monotone_witness :
    (calculate_old_regime_tax 400000).total_tax ≤ (calculate_old_regime_tax 800000).total_tax ∧
    (calculate_new_regime_tax 400000).total_tax ≤ (calculate_new_regime_tax 800000).total_tax :=
  total_tax_monotone 400000 800000 (by norm_num)

/-- C7: both slab chains are continuous at every tier boundary: the tax the
code computes at each boundary (the lower tier's formula, by the ≤
semantics) equals the next tier's formula evaluated at that boundary. -/
theorem bracket_boundary_continuity :
    old_base_tax 250000 = ((250000 : ℚ) - 250000) * 0.05 ∧
    old_base_tax 500000 = 12500 + ((500000 : ℚ) - 500000) * 0.2 ∧
    old_base_tax 1000000 = 112500 + ((1000000 : ℚ) - 1000000) * 0.3 ∧
    new_base_tax 300000 = ((300000 : ℚ) - 300000) * 0.05 ∧
    new_base_tax 600000 = 15000 + ((600000 : ℚ) - 600000) * 0.1 ∧
    new_base_tax 900000 = 45000 + ((900000 : ℚ) - 900000) * 0.15 ∧
    new_base_tax 1200000 = 90000 + ((1200000 : ℚ) - 1200000) * 0.2 ∧
    new_base_tax 1500000 = 150000 + ((1500000 : ℚ) - 1500000) * 0.3 := by
  norm_num [old_base_tax, new_base_tax]

/-- The advisory strings built by `get_tax_saving_tips`
(tax_calculator.py lines 90–114), as an inductive of the six tip kinds.
The two f-string tips carry the amount they interpolate
(`remaining_80c` and `home_loan`); comma formatting of that amount is
presentation-level and not modelled. -/
inductive Tip where
  | invest80C (remaining_80c : ℚ)
  | healthInsurance80D
  | homeLoan24b (current_claim : ℚ)
  | eduLoan80E
  | nps80CCD1B
  | incomeSplitting
deriving DecidableEq, Repr

/-- `get_tax_saving_tips` (tax_calculator.py lines 76–116): the list of
tips appended in source order under the source's conditions. -/
def get_tax_saving_tips (income investments health_insurance home_loan edu_loan : ℚ) :
    List Tip :=
  (if investments < 150000 then [Tip.invest80C (150000 - investments)] else []) ++
  (if health_insurance < 25000 then [Tip.healthInsurance80D] else []) ++
  (if home_loan > 0 ∧ home_loan < 200000 then [Tip.homeLoan24b home_loan] else []) ++
  (if edu_loan = 0 then [Tip.eduLoan80E] else []) ++
  [Tip.nps80CCD1B] ++
  (if income > 1000000 then [Tip.incomeSplitting] else [])

/-- C8: the NPS retirement-contribution tip is appended unconditionally,
so every call returns a list containing it, hence a non-empty list. -/
theorem tips_always_contain_nps
    (income investments health_insurance home_loan edu_loan : ℚ) :
    Tip.nps80CCD1B ∈ get_tax_saving_tips income investments health_insurance home_loan edu_loan ∧
    1 ≤ (get_tax_saving_tips income investments health_insurance home_loan edu_loan).length := by
  have hm : Tip.nps80CCD1B ∈
      get_tax_saving_tips income investments health_insurance home_loan edu_loan := by
    simp [get_tax_saving_tips]
  exact ⟨hm, List.length_pos.mpr (List.ne_nil_of_mem hm)⟩

/-- The new-regime slab tax never exceeds the old-regime slab tax on the
same amount. -/
theorem new_base_le_old_base (x : ℚ) : new_base_tax x ≤ old_base_tax x := by
  unfold new_base_tax old_base_tax
  split_ifs <;> linarith

/-- C10: on the same taxable amount the new regime's total tax never
exceeds the old regime's, so with no deductions `get_better_regime`
always reports New Regime. -/
theorem new_regime_never_worse (x : ℚ) (h : 0 ≤ x) :
    (calculate_new_regime_tax x).total_tax ≤ (calculate_old_regime_tax x).total_tax ∧
    (get_better_regime (calculate_old_regime_tax x) (calculate_new_regime_tax x)).regime =
      "New Regime" := by
  have hb := new_base_le_old_base x
  have hle : (calculate_new_regime_tax x).total_tax ≤
      (calculate_old_regime_tax x).total_tax := by
    simp only [calculate_old_regime_tax, calculate_new_regime_tax]
    linarith
  refine ⟨hle, ?_⟩
  rw [get_better_regime, if_neg (not_lt.mpr hle)]

/-- Witness for C10: the theorem applied at the concrete income 700,000. -/
theorem new_regime_never_worse_witness :
    (calculate_new_regime_tax 700000).total_tax ≤ (calculate_old_regime_tax 700000).total_tax ∧
    (get_better_regime (calculate_old_regime_tax 700000)
      (calculate_new_regime_tax 700000)).regime = "New Regime" :=
  new_regime_never_worse 700000 (by norm_num)

/-!
Embedding of `tax_predictor.py`.  The numpy global random generator is a
deterministic function of the last seed set and of how many draw
operations have been issued since; it is modelled by an explicit
`RNGState` plus an abstract generator function
`gen : seed → opCounter → elementIndex → ℕ` standing for the Mersenne
Twister output.  `DecisionTreeClassifier(max_depth=5)` is constructed
with `random_state=None`, so its `fit` reads the same global generator
state; it is modelled as an abstract function of the training data and
of the `RNGState` reached after data generation.  Both library routines
are abstract parameters: the theorems quantify over them, so they hold
for the actual numpy/sklearn implementations.
-/

/-- The numpy global RNG state: the seed last installed by
`np.random.seed` and the number of draw operations issued since. -/
structure RNGState where
  seed : ℕ
  counter : ℕ
deriving DecidableEq, Repr

/-- `np.random.seed(s)`: discard the previous global state entirely. -/
def np_seed (s : ℕ) : RNGState := ⟨s, 0⟩

/-- Advance the global state past one completed draw operation. -/
def RNGState.tick (st : RNGState) : RNGState := ⟨st.seed, st.counter + 1⟩

/-- `np.random.randint(lo, hi, n)`: n integers in [lo, hi), each a
deterministic function of the state, consuming one operation. -/
def np_randint (gen : ℕ → ℕ → ℕ → ℕ) (lo hi : ℤ) (n : ℕ) (st : RNGState) :
    List ℤ × RNGState :=
  ((List.range n).map fun i => lo + (gen st.seed st.counter i : ℤ) % (hi - lo), st.tick)

/-- `np.random.uniform(lo, hi, n)`: n rationals in [lo, hi), each a
deterministic function of the state, consuming one operation. -/
def np_uniform (gen : ℕ → ℕ → ℕ → ℕ) (lo hi : ℚ) (n : ℕ) (st : RNGState) :
    List ℚ × RNGState :=
  ((List.range n).map fun i =>
    lo + (hi - lo) * ((gen st.seed st.counter i % 2 ^ 53 : ℕ) : ℚ) / 2 ^ 53, st.tick)

/-- `np.clip(x, lo, hi)` on a scalar. -/
def np_clip (x lo hi : ℚ) : ℚ := max lo (min x hi)

/-- One row of the synthetic training DataFrame built by
`TaxRegimePredictor._generate_training_data` (tax_predictor.py 55–65). -/
structure TrainingRow where
  income : ℚ
  investments_80c : ℚ
  health_insurance : ℚ
  hra : ℚ
  home_loan : ℚ
  edu_loan : ℚ
  age : ℚ
  total_deductions : ℚ
  best_regime : Fin 2
deriving DecidableEq, Repr

/-- `TaxRegimePredictor._generate_training_data` (tax_predictor.py
22–67): seed 42 is installed first, then the seven random draws are
issued in source order; labels come from the deduction-to-income ratio
exceeding 0.12 (1 = Old, 0 = New).  The incoming global state `st0` is
discarded by the seed call. -/
def generate_training_data (gen : ℕ → ℕ → ℕ → ℕ) (st0 : RNGState) :
    List TrainingRow × RNGState :=
  let st := np_seed 42
  let (income, st) := np_randint gen 300000 2500000 100 st
  let (u, st) := np_uniform gen 0.05 0.15 100 st
  let (ded_80d, st) := np_randint gen 0 50000 100 st
  let (hra, st) := np_randint gen 0 200000 100 st
  let (home_loan, st) := np_randint gen 0 300000 100 st
  let (edu_loan, st) := np_randint gen 0 100000 100 st
  let (age, st) := np_randint gen 22 70 100 st
  let rows := (List.range 100).map fun i =>
    let inc : ℚ := (income.getD i 0 : ℤ)
    let d80c := np_clip (inc * u.getD i 0) 0 150000
    let d80d : ℚ := (ded_80d.getD i 0 : ℤ)
    let hr : ℚ := (hra.getD i 0 : ℤ)
    let hl : ℚ := (home_loan.getD i 0 : ℤ)
    let el : ℚ := (edu_loan.getD i 0 : ℤ)
    let td := d80c + d80d + hr + hl + el
    { income := inc, investments_80c := d80c, health_insurance := d80d,
      hra := hr, home_loan := hl, edu_loan := el,
      age := (age.getD i 0 : ℤ), total_deductions := td,
      best_regime := if td / inc > 0.12 then 1 else 0 : TrainingRow }
  (rows, st)

/-- The fitted `DecisionTreeClassifier`: a class prediction and a
class-probability vector for an 8-feature input row. -/
structure DTModel where
  predict : List ℚ → Fin 2
  predict_proba : List ℚ → Fin 2 → ℚ

/-- A `TaxRegimePredictor` instance: its synthetic training set and its
fitted model (tax_predictor.py 16–20). -/
structure TaxRegimePredictor where
  training_data : List TrainingRow
  model : DTModel

/-- `TaxRegimePredictor.__init__` (tax_predictor.py 16–20): generate the
training data (which re-seeds the global generator to 42), then fit the
model on it from the resulting generator state.  `fit` abstracts
`DecisionTreeClassifier(max_depth=5).fit` of `_train_model`. -/
def TaxRegimePredictor.init (gen : ℕ → ℕ → ℕ → ℕ)
    (fit : List TrainingRow → RNGState → DTModel) (st0 : RNGState) :
    TaxRegimePredictor :=
  let (data, st1) := generate_training_data gen st0
  { training_data := data, model := fit data st1 }

/-- The `{"regime", "confidence", "explanation"}` dictionary returned by
`predict_regime`. -/
structure RegimePrediction where
  regime : String
  confidence : ℚ
  explanation : String
deriving DecidableEq, Repr

/-- `TaxRegimePredictor.predict_regime` (tax_predictor.py 81–137):
total deductions, the 8-feature vector, the model's class and
probability, confidence = probability of the predicted class × 100, and
the explanation decision table on (label, total deductions). -/
def predict_regime (p : TaxRegimePredictor)
    (income investments_80c health_insurance hra home_loan edu_loan : ℚ)
    (age : ℚ := 30) : RegimePrediction :=
  let total_deductions := investments_80c + health_insurance + hra + home_loan + edu_loan
  let input_data := [income, investments_80c, health_insurance, hra,
    home_loan, edu_loan, age, total_deductions]
  let prediction := p.model.predict input_data
  let probability := p.model.predict_proba input_data
  let regime := if prediction = 1 then "Old Regime" else "New Regime"
  let confidence := probability prediction * 100
  let explanation :=
    if prediction = 1 then
      if total_deductions > 150000 then
        "Your high deduction amount makes the Old Regime more beneficial."
      else
        "Based on your profile, the Old Regime provides better tax benefits."
    else
      if total_deductions < 50000 then
        "With low deductions, the New Regime\x27s reduced tax rates are more beneficial."
      else
        "Based on your overall profile, the New Regime appears to be more advantageous."
  { regime := regime, confidence := confidence, explanation := explanation }

/-- C9: because `__init__` re-seeds the generator to 42 before any draw,
two constructions — whatever the global RNG state each one starts from —
build identical synthetic training sets, and their `predict_regime`
results agree on every 7-tuple of inputs; this holds for every
deterministic library generator `gen` and fitting routine `fit`. -/
theorem predictor_reproducible (gen : ℕ → ℕ → ℕ → ℕ)
    (fit : List TrainingRow → RNGState → DTModel) (s0 s1 : RNGState) :
    (TaxRegimePredictor.init gen fit s0).training_data =
      (TaxRegimePredictor.init gen fit s1).training_data ∧
    ∀ income investments_80c health_insurance hra home_loan edu_loan age : ℚ,
      predict_regime (TaxRegimePredictor.init gen fit s0)
          income investments_80c health_insurance hra home_loan edu_loan age =
        predict_regime (TaxRegimePredictor.init gen fit s1)
          income investments_80c health_insurance hra home_loan edu_loan age := by
  have h : TaxRegimePredictor.init gen fit s0 = TaxRegimePredictor.init gen fit s1 := rfl
  exact ⟨by rw [h], fun _ _ _ _ _ _ _ => by rw [h]⟩
